import Mathlib

/-!
Verification of the session-rating-analyzer pipeline: the query
generator (`QueryGenerator` in Backend/services/queryGenerator.js), the
result analyzer (`ResultAnalyzer` in the same service layer), and the
retry-execution loop (`MongoService.executeQueryWithRetry` in
Backend/services/mongoService.js).

JavaScript values flowing through the pipeline are modelled by a JSON
value type; numbers are modelled as rationals.  External builtins
(JSON.parse, JSON.stringify, Set, toFixed) and the two external
collaborators (the OpenAI chat oracle and the MongoDB store) are
modelled explicitly where the code under verification observes them.
-/

namespace SessionAnalyzer

/-- JSON-like JavaScript values.  Object fields are kept in insertion
order, as JavaScript preserves it; numbers are modelled as rationals
(the floating-point representation is not observable by any property
verified here). -/
inductive Json where
  | null
  | bool (b : Bool)
  | num (q : ℚ)
  | str (s : String)
  | arr (elems : List Json)
  | obj (fields : List (String × Json))
deriving Repr

mutual

/-- Structural equality test on JSON values, modelling JavaScript
strict equality on the primitive values the code compares (strings and
numbers inside a Set). -/
def Json.beq : Json → Json → Bool
  | .null, .null => true
  | .bool a, .bool b => a == b
  | .num a, .num b => a == b
  | .str a, .str b => a == b
  | .arr xs, .arr ys => Json.beqList xs ys
  | .obj xs, .obj ys => Json.beqFields xs ys
  | _, _ => false

/-- Elementwise equality of JSON arrays. -/
def Json.beqList : List Json → List Json → Bool
  | [], [] => true
  | x :: xs, y :: ys => Json.beq x y && Json.beqList xs ys
  | _, _ => false

/-- Fieldwise equality of JSON objects. -/
def Json.beqFields : List (String × Json) → List (String × Json) → Bool
  | [], [] => true
  | (k, v) :: xs, (l, w) :: ys => k == l && Json.beq v w && Json.beqFields xs ys
  | _, _ => false

end

instance : BEq Json := ⟨Json.beq⟩

/-- Recognizer for JSON arrays, the shape `Array.isArray` tests. -/
def Json.isArr : Json → Bool
  | .arr _ => true
  | _ => false

/-- JavaScript truthiness of a value (null/undefined, false, 0 and the
empty string are falsy; every object and array is truthy). -/
def truthy : Json → Bool
  | .null => false
  | .bool b => b
  | .num q => q != 0
  | .str s => s != ""
  | .arr _ => true
  | .obj _ => true

/-- Property lookup `v[k]` returning `none` for an absent property or a
non-object receiver (JavaScript yields undefined there). -/
def getField (j : Json) (k : String) : Option Json :=
  match j with
  | .obj fs => fs.lookup k
  | _ => none

/-- Property access `v.k` as an expression: an absent property reads as
undefined, modelled by `Json.null` (both are falsy, and the code under
verification only reads such a value behind a truthiness guard). -/
def jsField (j : Json) (k : String) : Json :=
  (getField j k).getD Json.null

/-- Models `v.hasOwnProperty(k)`. -/
def hasProp (j : Json) (k : String) : Bool :=
  match j with
  | .obj fs => fs.any (fun f => f.1 == k)
  | _ => false

mutual

/-- Models the builtin `JSON.stringify` on the values the analyzer
serializes.  The exact spelling of the serialization is not observable
by any verified property; what matters is which records are serialized,
so a compact canonical printer is used. -/
def jsonStringify : Json → String
  | .null => "null"
  | .bool b => if b then "true" else "false"
  | .num q => toString q
  | .str s => "\"" ++ s ++ "\""
  | .arr xs => "[" ++ String.intercalate "," (stringifyList xs) ++ "]"
  | .obj fs => "\x7b" ++ String.intercalate "," (stringifyFields fs) ++ "\x7d"

/-- Serialization of the elements of a JSON array. -/
def stringifyList : List Json → List String
  | [] => []
  | x :: xs => jsonStringify x :: stringifyList xs

/-- Serialization of the fields of a JSON object. -/
def stringifyFields : List (String × Json) → List String
  | [] => []
  | (k, v) :: fs => ("\"" ++ k ++ "\":" ++ jsonStringify v) :: stringifyFields fs

end

/-- Models JavaScript string coercion `String(v)` as used by
`Array.prototype.join` on the instructor and domain values (which are
strings in every verified scenario). -/
def jsDisplay : Json → String
  | .null => "null"
  | .bool b => if b then "true" else "false"
  | .num q => toString q
  | .str s => s
  | .arr xs => String.intercalate "," (stringifyList xs)
  | .obj _ => "[object Object]"

/-- Numeric coercion of a JSON value: a number yields itself and any
other value yields 0.  The analyzer only applies it to values already
known to be numbers (the claims assume the documented 1-5 rating
invariant), so the non-numeric branch is never observable. -/
def ratingValue : Json → ℚ
  | .num q => q
  | _ => 0

/-- Models `Number.prototype.toFixed(2)` on the nonnegative averages the
analyzer prints: round half up to two decimals. -/
def toFixed2 (q : ℚ) : String :=
  let scaled : ℕ := (q * 100 + 1 / 2).floor.toNat
  let intPart := scaled / 100
  let fracPart := scaled % 100
  toString intPart ++ "." ++ (if fracPart < 10 then "0" else "") ++ toString fracPart

/-- Whitespace as recognized by the JavaScript trim builtin on the
replies observed here. -/
def isSpaceChar (c : Char) : Bool :=
  c == ' ' || c == '\n' || c == '\t' || c == '\r'

/-- Models the builtin `String.prototype.trim`: strip whitespace from
both ends. -/
def jsTrim (s : String) : String :=
  ⟨((s.data.dropWhile isSpaceChar).reverse.dropWhile isSpaceChar).reverse⟩

/-- Helper for `dedupFirst`: drop the elements already seen. -/
def dedupFirstAux : List Json → List Json → List Json
  | _, [] => []
  | seen, a :: l =>
      if seen.contains a then dedupFirstAux seen l
      else a :: dedupFirstAux (a :: seen) l

/-- Models `[...new Set(l)]`: remove duplicates keeping the first
occurrence of each value, in order. -/
def dedupFirst (l : List Json) : List Json :=
  dedupFirstAux [] l

/-- Verbatim system context installed by the query generator's
initialization (the schema-and-rules preamble defined in its
`initialize` method). -/
def queryGeneratorContext : String :=
  "You are a MongoDB query generator for a session rating database.\n\nDATABASE SCHEMA:\nCollection: sessions\nDocument Structure:\n\x7b\n  \"_id\": ObjectId,\n  \"topicCode\": \"string (e.g., \x27Test Review Session\x27)\",\n  \"type\": \"string (e.g., \x27SRE Assignment Review\x27)\",\n  \"domain\": \"string (e.g., \x27SRE\x27, \x27Cloud\x27, \x27Backend\x27, \x27Frontend\x27, \x27Data Science\x27)\",\n  \"class\": \"string (e.g., \x27Cloud Computing & AWS Services\x27)\",\n  \"cohorts\": [\"array of strings\"],\n  \"instructor\": \"string (e.g., \x27Rishi Bollu\x27)\",\n  \"sessionDate\": \"Date\",\n  \"ratings\": \x7b\n    \"overallAverage\": \"number (1-5 scale)\",\n    \"totalResponses\": \"number\",\n    \"studentsAttended\": \"number\", \n    \"cohortStrength\": \"number\",\n    \"percentRated\": \"number (percentage)\",\n    \"yesResponses\": \"number\",\n    \"noResponses\": \"number\",\n    \"yesPercent\": \"number\",\n    \"noPercent\": \"number\"\n  \x7d,\n  \"metadata\": \x7b\n    \"sourceSheet\": \"string\",\n    \"sheetRowNumber\": \"number\",\n    \"lastSyncedAt\": \"Date\"\n  \x7d,\n  \"createdAt\": \"Date\",\n  \"updatedAt\": \"Date\"\n\x7d\n\nIMPORTANT RULES:\n1. Always return ONLY valid MongoDB aggregation pipeline as JSON array\n2. Use aggregation pipeline format: [\x7b $match: \x7b...\x7d \x7d, \x7b $group: \x7b...\x7d \x7d, ...]\n3. For date queries, use proper MongoDB date operators like $gte, $lte\n4. For quarter calculations: Q1 (Jan-Mar), Q2 (Apr-Jun), Q3 (Jul-Sep), Q4 (Oct-Dec)\n5. Use $dateToString, $year, $month for date formatting\n6. For rating improvements, use $group and $project to calculate differences\n7. Handle case-insensitive text matching with regex when needed\n8. Return empty array [] if query cannot be converted to MongoDB\n\nEXAMPLES:\nQuery: \"Average rating for Rishi Bollu\"\nResponse: [\x7b\"$match\":\x7b\"instructor\":\"Rishi Bollu\"\x7d\x7d,\x7b\"$group\":\x7b\"_id\":null,\"avgRating\":\x7b\"$avg\":\"$ratings.overallAverage\"\x7d,\"totalSessions\":\x7b\"$sum\":1\x7d\x7d\x7d]\n\nQuery: \"Sessions in 2024\"  \nResponse: [\x7b\"$match\":\x7b\"sessionDate\":\x7b\"$gte\":\"2024-01-01T00:00:00.000Z\",\"$lte\":\"2024-12-31T23:59:59.999Z\"\x7d\x7d\x7d]\n\nConvert the user\x27s English query into a MongoDB aggregation pipeline. Return only the JSON array."

/-- Verbatim system context installed by the result analyzer's
initialization (the analysis-guidelines preamble defined in its
`initialize` method). -/
def resultAnalyzerContext : String :=
  "You are a data analyst specializing in educational session ratings and performance metrics.\n\nYour job is to analyze query results from a session rating database and provide clear, actionable insights.\n\nCONTEXT ABOUT THE DATA:\n- Sessions are educational classes with instructors\n- Ratings are on a 1-5 scale (5 being excellent)\n- Domains include: SRE, Cloud, Backend, Frontend, Data Science, etc.\n- Each session has attendance and feedback metrics\n- Data spans multiple quarters and years\n\nANALYSIS GUIDELINES:\n1. When showing aggregated results (like \"average rating for each instructor\"), provide ALL results in a clear, organized format\n2. For queries asking for lists, rankings, or comparisons, show the COMPLETE data\n3. Include specific numbers and percentages when relevant\n4. Compare performance where appropriate (vs average, trends over time)\n5. Point out any concerning patterns (low ratings, poor attendance)\n6. Keep responses focused and actionable\n7. If no data found, explain what this means\n8. Format numbers clearly (e.g., \"4.2 out of 5\", \"85% attendance\")\n9. For large result sets, organize data in tables or clear lists\n10. Always show ALL instructors/domains/entities when user asks for \"each\" or \"all\"\n\nRESPONSE FORMAT:\n- For aggregated queries (like \"average rating for each instructor\"), provide a COMPLETE list or table of ALL results\n- Start with a direct answer to the user\x27s question\n- Show ALL data when user asks for \"each\", \"all\", or wants a complete list\n- Follow with supporting details and context\n- End with actionable insights or recommendations if applicable\n- Keep it conversational but professional\n- Format large lists in readable tables or organized sections\n\nDo not:\n- Include raw MongoDB queries or technical details\n- Overwhelm with too many statistics\n- Make assumptions beyond what the data shows"

/-- Mutable state of the `QueryGenerator` singleton: the
`isInitialized` flag and the lazily installed system context (`null`
before initialization, modelled by `none`). -/
structure GenState where
  isInitialized : Bool
  context : Option String
deriving Repr, DecidableEq

/-- Mutable state of the `ResultAnalyzer` singleton. -/
structure AnalyzerState where
  isInitialized : Bool
  context : Option String
deriving Repr, DecidableEq

/-- Outcome of applying the builtin `JSON.parse` to the oracle's
trimmed reply: either the parse threw (with an engine-supplied message)
or it produced a JSON value. -/
inductive ParsedJson where
  | fail (errMsg : String)
  | ok (value : Json)
deriving Repr

/-- One chat-completion call observed from outside: either the
transport/API call threw (oracle unavailable) or it answered with a
content string.  The `parsed` component records what the builtin
`JSON.parse` yields on the trimmed content, so a caller that parses the
reply is modelled without re-implementing the JavaScript JSON grammar. -/
inductive OracleResult where
  | unavailable (errMsg : String)
  | reply (content : String) (parsed : ParsedJson)
deriving Repr

/-- The request a component sends to the chat oracle: system message
content (`none` models a null context), user message, temperature and
max_tokens, exactly the fields the code fills in. -/
structure ChatRequest where
  system : Option String
  user : String
  temperature : ℚ
  maxTokens : ℕ
deriving Repr

/-- The oracle as the environment sees it: a response for each request. -/
def Oracle : Type := ChatRequest → OracleResult

namespace QueryGenerator

/-- Models `QueryGenerator.initialize()`: a no-op when already
initialized, otherwise installs the fixed schema context and sets the
flag. -/
def initOnce (st : GenState) : GenState :=
  if st.isInitialized then st
  else { isInitialized := true, context := some queryGeneratorContext }

/-- Models `QueryGenerator.generateQuery(userQuery)`.  Errors are the
thrown messages: the uninitialized guard throws before any oracle call;
inside the try, an oracle failure or a parse/shape failure is wrapped
into the "Failed to generate MongoDB query" message (the parse and
array-shape failures are first wrapped by the inner catch into the
"Invalid MongoDB query generated" message, matching the nested try of
the source). -/
def generateQuery (st : GenState) (oracle : Oracle) (userQuery : String) :
    Except String Json :=
  if !st.isInitialized then
    .error "Query Generator not initialized"
  else
    match oracle ⟨st.context, userQuery, 1 / 10, 1000⟩ with
    | .unavailable msg =>
        .error ("Failed to generate MongoDB query: " ++ msg)
    | .reply _ parsed =>
        match parsed with
        | .fail msg =>
            .error ("Failed to generate MongoDB query: "
              ++ ("Invalid MongoDB query generated: " ++ msg))
        | .ok value =>
            match value with
            | .arr stages => .ok (.arr stages)
            | _ =>
                .error ("Failed to generate MongoDB query: "
                  ++ ("Invalid MongoDB query generated: " ++ "Query must be an array"))

/-- The repair prompt built by `QueryGenerator.fixQuery`. -/
def fixPrompt (originalQuery errorMessage : String) (failedQuery : Json) : String :=
  "The previous MongoDB query failed with error: \"" ++ errorMessage ++ "\"\n\n"
    ++ "Original user request: \"" ++ originalQuery ++ "\"\n"
    ++ "Failed query: " ++ jsonStringify failedQuery ++ "\n\n"
    ++ "Please provide a corrected MongoDB aggregation pipeline that fixes this error.\n"
    ++ "Return only the corrected JSON array."

/-- Models `QueryGenerator.fixQuery(originalQuery, errorMessage,
failedQuery)`.  The source has no initialized guard here: the oracle is
called with whatever context is stored (possibly null), and the parsed
reply is returned without an array-shape check; any thrown error is
wrapped into the "Failed to fix query" message. -/
def fixQuery (st : GenState) (oracle : Oracle)
    (originalQuery errorMessage : String) (failedQuery : Json) :
    Except String Json :=
  match oracle ⟨st.context, fixPrompt originalQuery errorMessage failedQuery,
      1 / 10, 1000⟩ with
  | .unavailable msg => .error ("Failed to fix query: " ++ msg)
  | .reply _ parsed =>
      match parsed with
      | .fail msg => .error ("Failed to fix query: " ++ msg)
      | .ok value => .ok value

end QueryGenerator

namespace ResultAnalyzer

/-- Models `ResultAnalyzer.initialize()`: a no-op when already
initialized, otherwise installs the fixed analysis context and sets the
flag. -/
def initOnce (st : AnalyzerState) : AnalyzerState :=
  if st.isInitialized then st
  else { isInitialized := true, context := some resultAnalyzerContext }

/-- Models `ResultAnalyzer.isAggregatedData(results)`: false on an
absent or empty result set; otherwise inspects only the first record
for an identifier field together with one of the recognized
aggregate-value field names, and requires at most 200 records. -/
def isAggregatedData (results : Option (List Json)) : Bool :=
  match results with
  | none => false
  | some rs =>
      match rs with
      | [] => false
      | first :: _ =>
          truthy first && hasProp first "_id" &&
            (hasProp first "avgRating" || hasProp first "averageRating" ||
              hasProp first "totalSessions" || hasProp first "count" ||
              hasProp first "sum" || hasProp first "avg") &&
            decide (rs.length ≤ 200)

/-- The large-set branch of `ResultAnalyzer.prepareResultSummary`: the
bounded digest built line by line for a result set that is neither
aggregated-looking nor small. -/
def largeSetDigest (rs : List Json) : String :=
  let sampleData := rs.take 10
  let ratingsFound := rs.filter (fun r =>
    truthy (jsField r "ratings") && truthy (jsField (jsField r "ratings") "overallAverage"))
  let instructors := dedupFirst ((rs.map (fun r => jsField r "instructor")).filter truthy)
  let domains := dedupFirst ((rs.map (fun r => jsField r "domain")).filter truthy)
  "Data overview:\n"
    ++ "- Total records: " ++ toString rs.length ++ "\n"
    ++ "- Sample data (first 10 records): " ++ jsonStringify (.arr sampleData) ++ "\n"
    ++ (if ratingsFound.length > 0 then
          "- Average rating across results: "
            ++ toFixed2 ((ratingsFound.map (fun r =>
                  ratingValue (jsField (jsField r "ratings") "overallAverage"))).sum
                / ratingsFound.length)
            ++ "\n"
        else "")
    ++ (if instructors.length > 0 then
          "- Unique instructors: " ++ toString instructors.length ++ " ("
            ++ String.intercalate ", " ((instructors.take 5).map jsDisplay)
            ++ (if instructors.length > 5 then "..." else "") ++ ")\n"
        else "")
    ++ (if domains.length > 0 then
          "- Domains covered: " ++ String.intercalate ", " (domains.map jsDisplay) ++ "\n"
        else "")

/-- Models `ResultAnalyzer.prepareResultSummary(results)` (`none`
models a null/undefined argument): the fixed no-data sentence on an
absent or empty set, full serialization for aggregated-looking sets and
for sets of at most 10 records, and the bounded digest otherwise. -/
def prepareResultSummary (results : Option (List Json)) : String :=
  match results with
  | none => "No data found matching the query criteria."
  | some rs =>
      if rs.length = 0 then "No data found matching the query criteria."
      else if isAggregatedData (some rs) then
        "Complete aggregated results (" ++ toString rs.length ++ " records):\n"
          ++ jsonStringify (.arr rs)
      else if rs.length ≤ 10 then
        "Complete results: " ++ jsonStringify (.arr rs)
      else
        largeSetDigest rs

/-- The analysis prompt built by `ResultAnalyzer.analyzeResults`. -/
def analysisPrompt (originalQuery : String) (results : List Json) : String :=
  "User asked: \"" ++ originalQuery ++ "\"\n\n"
    ++ "Query returned " ++ toString results.length ++ " results.\n\n"
    ++ prepareResultSummary (some results) ++ "\n\n"
    ++ "Please analyze these results and provide clear insights about what this data "
    ++ "tells us in response to the user\x27s question."

/-- Models `ResultAnalyzer.analyzeResults(originalQuery, results)`:
the uninitialized guard throws before the try; otherwise the oracle is
called on the analysis prompt and its trimmed content is returned as-is
(there is no emptiness check); an oracle failure is wrapped into the
"Failed to analyze results" message. -/
def analyzeResults (st : AnalyzerState) (oracle : Oracle)
    (originalQuery : String) (results : List Json) : Except String String :=
  if !st.isInitialized then
    .error "Result Analyzer not initialized"
  else
    match oracle ⟨st.context, analysisPrompt originalQuery results, 3 / 10, 800⟩ with
    | .unavailable msg => .error ("Failed to analyze results: " ++ msg)
    | .reply content _ => .ok (jsTrim content)

end ResultAnalyzer

namespace MongoService

/-- One observable call made by the retry loop: an aggregation
execution against the store (with the attempt index and the query
executed), or a repair request handed to the query generator (with the
error message fed back and the query being repaired). -/
inductive CallEvent where
  | exec (attempt : ℕ) (query : Json)
  | fix (errMsg : String) (query : Json)
deriving Repr

/-- The value `executeQueryWithRetry` produces: a returned result set,
a thrown error (carrying the thrown message), or the undefined value a
JavaScript function returns when it falls off the end of the loop. -/
inductive RunOutcome where
  | success (results : List Json)
  | thrown (msg : String)
  | undef
deriving Repr

/-- The store as the loop sees it: for each attempt index, executing a
pipeline either returns a complete result set or throws with a
message.  Attempt-indexing models the external state of the database
between attempts. -/
def Store : Type := ℕ → Json → Except String (List Json)

/-- The repair collaborator as the loop sees it:
`queryGenerator.fixQuery(originalQuery, errorMessage, currentQuery)`
either returns a repaired query or throws with a message. -/
def Fixer : Type := String → String → Json → Except String Json

/-- Body of the `for (let attempt = 0; attempt < maxRetries;
attempt++)` loop of `executeQueryWithRetry`, with `fuel` the number of
remaining iterations (so `attempt + fuel` equals the total iteration
count `max 0 maxRetries` throughout a run).  On a successful execution
the results are returned; on a failing execution at the last allowed
attempt the wrapped "Database query failed after maxRetries attempts"
message is thrown; otherwise the repair call is made, and its failure
throws the wrapped "Query could not be fixed" message while its success
re-enters the loop with the repaired query.  The second component
records the store and repair calls in order. -/
def retryGo (store : Store) (fixer : Fixer) (originalQuery : String)
    (maxRetries : ℤ) : ℕ → ℕ → Json → RunOutcome × List CallEvent
  | 0, _, _ => (.undef, [])
  | fuel + 1, attempt, currentQuery =>
      match store attempt currentQuery with
      | .ok results => (.success results, [.exec attempt currentQuery])
      | .error msg =>
          if (attempt : ℤ) = maxRetries - 1 then
            (.thrown ("Database query failed after " ++ toString maxRetries
                ++ " attempts: " ++ msg),
              [.exec attempt currentQuery])
          else
            match fixer originalQuery msg currentQuery with
            | .ok fixedQuery =>
                let rest := retryGo store fixer originalQuery maxRetries fuel
                  (attempt + 1) fixedQuery
                (rest.1, .exec attempt currentQuery :: .fix msg currentQuery :: rest.2)
            | .error fixMsg =>
                (.thrown ("Query could not be fixed: " ++ fixMsg),
                  [.exec attempt currentQuery, .fix msg currentQuery])

/-- Models `MongoService.executeQueryWithRetry(mongoQuery, originalQuery,
maxRetries)` (default `maxRetries = 2` at the call sites), together
with the trace of external calls it makes. -/
def executeQueryWithRetry (store : Store) (fixer : Fixer)
    (mongoQuery : Json) (originalQuery : String) (maxRetries : ℤ) :
    RunOutcome × List CallEvent :=
  retryGo store fixer originalQuery maxRetries maxRetries.toNat 0 mongoQuery

/-- Number of execution attempts recorded in a call trace. -/
def execCount (events : List CallEvent) : ℕ :=
  (events.filter (fun e => match e with | .exec _ _ => true | .fix _ _ => false)).length

end MongoService

/-! Concrete fixtures used to exercise the definitions at particular
inputs: component states on both sides of initialization, constant
oracles, and store/fixer stubs. -/

/-- Generator state before any initialization. -/
def uninitGen : GenState := ⟨false, none⟩

/-- Generator state after initialization. -/
def readyGen : GenState := ⟨true, some queryGeneratorContext⟩

/-- Analyzer state before any initialization. -/
def uninitAnalyzer : AnalyzerState := ⟨false, none⟩

/-- Analyzer state after initialization. -/
def readyAnalyzer : AnalyzerState := ⟨true, some resultAnalyzerContext⟩

/-- Oracle that always answers with the text "5", which parses as the
JSON number 5 (valid JSON that is not an array). -/
def oracleNum5 : Oracle := fun _ => .reply "5" (.ok (Json.num 5))

/-- Oracle that always answers with the text "[]", which parses as the
empty JSON array. -/
def oracleEmptyArr : Oracle := fun _ => .reply "[]" (.ok (Json.arr []))

/-- Oracle that always answers with an empty content string (an empty
string is not valid JSON, so its parse fails). -/
def oracleEmptyReply : Oracle := fun _ => .reply "" (.fail "Unexpected end of JSON input")

/-- Oracle that always answers with prose that is not JSON. -/
def oracleProse : Oracle :=
  fun _ => .reply "I cannot produce a query" (.fail "Unexpected token I in JSON")

/-- Oracle whose transport call always throws. -/
def oracleDown : Oracle := fun _ => .unavailable "network down"

/-- Store stub that throws on every attempt, with a message naming the
attempt index. -/
def storeAlwaysFail : MongoService.Store :=
  fun attempt _ => .error ("execution failed at attempt " ++ toString attempt)

/-- Store stub that throws on attempt 0 and succeeds from attempt 1 on. -/
def storeSucceedsAt1 : MongoService.Store :=
  fun attempt _ => if attempt = 0 then .error "first attempt failed"
    else .ok [Json.num 1]

/-- Fixer stub that always returns the empty pipeline. -/
def fixerOk : MongoService.Fixer := fun _ _ _ => .ok (Json.arr [])

/-- Fixer stub that always throws. -/
def fixerFail : MongoService.Fixer := fun _ _ _ => .error "repair refused"

/-- A record lacking both the identifier field and every recognized
aggregate-value field of the aggregation heuristic. -/
def lacksAggMarkers (r : Json) : Bool :=
  !(hasProp r "_id") &&
    !(hasProp r "avgRating" || hasProp r "averageRating" || hasProp r "totalSessions" ||
      hasProp r "count" || hasProp r "sum" || hasProp r "avg")

/-- An 11-record result set whose first record looks aggregated
(identifier plus avgRating) while the remaining 10 records carry none
of the aggregate markers. -/
def mixedFirstAggSet : List Json :=
  Json.obj [("_id", Json.str "A"), ("avgRating", Json.num 4)]
    :: List.replicate 10 (Json.obj [("topicCode", Json.str "T")])

/-- A large plain result set: 11 identical session-shaped records with
an instructor and a domain and no aggregate markers. -/
def plainLargeSet : List Json :=
  List.replicate 11 (Json.obj [("instructor", Json.str "A"), ("domain", Json.str "D")])

/-! Specification-side description of the bounded digest, written from
the spec's wording ("total count, the first 10 records verbatim, the
mean of any numeric rating field present across records, the distinct
set of instructor names (first 5 listed), the distinct set of domain
values"), to be compared with the digest the code builds. -/

/-- A record has the rating field when the path
`ratings.overallAverage` is present. -/
def hasRatingField (r : Json) : Bool :=
  match getField r "ratings" with
  | some rv => (getField rv "overallAverage").isSome
  | none => false

/-- The values of field `k` across the records that carry it. -/
def presentValues (rs : List Json) (k : String) : List Json :=
  rs.filterMap (fun r => getField r k)

/-- Spec-side digest header: the total record count (the next line
follows after the newline that opens `specSampleLine`). -/
def specTotalLine (rs : List Json) : String :=
  "Data overview:\n- Total records: " ++ toString rs.length

/-- Spec-side digest sample: exactly the first 10 records, verbatim,
on its own line. -/
def specSampleLine (rs : List Json) : String :=
  "\n- Sample data (first 10 records): " ++ jsonStringify (Json.arr (rs.take 10)) ++ "\n"

/-- Spec-side digest mean: the mean of the rating field over exactly
the records that have it, included only when at least one record has
it. -/
def specMeanLine (rs : List Json) : String :=
  let withRating := rs.filter hasRatingField
  if withRating.length > 0 then
    "- Average rating across results: "
      ++ toFixed2 ((withRating.map (fun r =>
            ratingValue (jsField (jsField r "ratings") "overallAverage"))).sum
          / withRating.length)
      ++ "\n"
  else ""

/-- Spec-side digest instructors: the distinct instructor names, the
first 5 listed, an ellipsis when there are more. -/
def specInstructorLine (rs : List Json) : String :=
  let names := dedupFirst (presentValues rs "instructor")
  if names.length > 0 then
    "- Unique instructors: " ++ toString names.length ++ " ("
      ++ String.intercalate ", " ((names.take 5).map jsDisplay)
      ++ (if names.length > 5 then "..." else "") ++ ")\n"
  else ""

/-- Spec-side digest domains: the distinct set of domain values. -/
def specDomainLine (rs : List Json) : String :=
  let ds := dedupFirst (presentValues rs "domain")
  if ds.length > 0 then
    "- Domains covered: " ++ String.intercalate ", " (ds.map jsDisplay) ++ "\n"
  else ""

/-- Well-formedness of the rating field on a record, per the documented
schema (`ratings.overallAverage` is a number on a 1-5 scale when
present): when the path is present its value is a nonzero number. -/
def wellFormedRating (r : Json) : Bool :=
  match getField r "ratings" with
  | none => true
  | some rv =>
      match getField rv "overallAverage" with
      | none => true
      | some (.num q) => decide (q ≠ 0)
      | some _ => false

/-- Well-formedness of a string-valued field on a record, per the
documented schema (instructor and domain are nonempty strings when
present). -/
def wellFormedStringField (r : Json) (k : String) : Bool :=
  match getField r k with
  | none => true
  | some (.str s) => decide (s ≠ "")
  | some _ => false

theorem execCount_nil : MongoService.execCount [] = 0 := rfl

theorem execCount_cons_exec (a : ℕ) (q : Json) (l : List MongoService.CallEvent) :
    MongoService.execCount (.exec a q :: l) = MongoService.execCount l + 1 := by
  simp [MongoService.execCount]

theorem execCount_cons_fix (m : String) (q : Json) (l : List MongoService.CallEvent) :
    MongoService.execCount (.fix m q :: l) = MongoService.execCount l := by
  simp [MongoService.execCount]

/-- The retry loop makes at most `fuel` store calls. -/
theorem retryGo_execCount_le (store : MongoService.Store) (fixer : MongoService.Fixer)
    (oq : String) (maxRetries : ℤ) :
    ∀ (fuel attempt : ℕ) (q : Json),
      MongoService.execCount
        (MongoService.retryGo store fixer oq maxRetries fuel attempt q).2 ≤ fuel := by
  intro fuel
  induction fuel with
  | zero =>
      intro attempt q
      simp [MongoService.retryGo, execCount_nil]
  | succ f ih =>
      intro attempt q
      rcases hs : store attempt q with e | res
      · by_cases hlast : (attempt : ℤ) = maxRetries - 1
        · simp [MongoService.retryGo, hs, hlast, MongoService.execCount]
        · rcases hf : fixer oq e q with fe | q2
          · simp [MongoService.retryGo, hs, hlast, hf, MongoService.execCount]
          · have h2 := ih (attempt + 1) q2
            simp [MongoService.retryGo, hs, hlast, hf, MongoService.execCount] at h2 ⊢
            omega
      · simp [MongoService.retryGo, hs, MongoService.execCount]

/-- When the store throws on every attempt and every repair succeeds,
the loop runs out of budget and throws the exhaustion message built
from the total attempt count and the message of the last execution
failure. -/
theorem retryGo_exhausts (store : MongoService.Store) (fixer : MongoService.Fixer)
    (oq : String) (maxRetries : ℤ)
    (eF : ℕ → Json → String) (fF : String → String → Json → Json)
    (hstore : ∀ a q, store a q = .error (eF a q))
    (hfix : ∀ a e q, fixer a e q = .ok (fF a e q)) :
    ∀ (fuel attempt : ℕ) (q : Json), 0 < fuel → attempt + fuel = maxRetries.toNat →
      ∃ qf evs,
        MongoService.retryGo store fixer oq maxRetries fuel attempt q
            = (.thrown ("Database query failed after " ++ toString maxRetries
                ++ " attempts: " ++ eF (maxRetries.toNat - 1) qf), evs) ∧
          MongoService.execCount evs = fuel := by
  intro fuel
  induction fuel with
  | zero => omega
  | succ f ih =>
      intro attempt q _ htotal
      rcases Nat.eq_zero_or_pos f with hf0 | hfpos
      · subst hf0
        have hlast : (attempt : ℤ) = maxRetries - 1 := by omega
        have hidx : attempt = maxRetries.toNat - 1 := by omega
        refine ⟨q, [.exec attempt q], ?_, ?_⟩
        · simp only [MongoService.retryGo, hstore attempt q]
          rw [if_pos hlast, hidx]
        · simp [MongoService.execCount]
      · have hlast : ¬ (attempt : ℤ) = maxRetries - 1 := by omega
        obtain ⟨qf, evs, heq, hcount⟩ :=
          ih (attempt + 1) (fF oq (eF attempt q) q) hfpos (by omega)
        refine ⟨qf, .exec attempt q :: .fix (eF attempt q) q :: evs, ?_, ?_⟩
        · simp only [MongoService.retryGo, hstore attempt q]
          rw [if_neg hlast]
          rw [hfix oq (eF attempt q) q]
          simp only [heq]
        · rw [execCount_cons_exec, execCount_cons_fix, hcount]

/-- When the store throws on every attempt before `k`, succeeds at
attempt `k`, and every repair succeeds, the loop returns attempt k's
result set after exactly `k - attempt + 1` store calls. -/
theorem retryGo_first_success (store : MongoService.Store) (fixer : MongoService.Fixer)
    (oq : String) (maxRetries : ℤ)
    (eF : ℕ → Json → String) (fF : String → String → Json → Json)
    (rF : Json → List Json) (k : ℕ)
    (hbefore : ∀ a q, a < k → store a q = .error (eF a q))
    (hat : ∀ q, store k q = .ok (rF q))
    (hfix : ∀ a e q, fixer a e q = .ok (fF a e q))
    (hk : k < maxRetries.toNat) :
    ∀ (fuel attempt : ℕ) (q : Json), attempt + fuel = maxRetries.toNat → attempt ≤ k →
      ∃ qk evs,
        MongoService.retryGo store fixer oq maxRetries fuel attempt q
            = (.success (rF qk), evs) ∧
          MongoService.execCount evs = k - attempt + 1 := by
  intro fuel
  induction fuel with
  | zero => omega
  | succ f ih =>
      intro attempt q htotal hle
      rcases Nat.lt_or_ge attempt k with hlt | hge
      · have hlast : ¬ (attempt : ℤ) = maxRetries - 1 := by omega
        obtain ⟨qk, evs, heq, hcount⟩ :=
          ih (attempt + 1) (fF oq (eF attempt q) q) (by omega) (by omega)
        refine ⟨qk, .exec attempt q :: .fix (eF attempt q) q :: evs, ?_, ?_⟩
        · simp only [MongoService.retryGo, hbefore attempt q hlt]
          rw [if_neg hlast]
          rw [hfix oq (eF attempt q) q]
          simp only [heq]
        · rw [execCount_cons_exec, execCount_cons_fix, hcount]
          omega
      · have hak : attempt = k := by omega
        subst hak
        refine ⟨q, [.exec attempt q], ?_, ?_⟩
        · simp only [MongoService.retryGo, hat q]
        · simp [MongoService.execCount]

/-- C1: with a positive budget N the coordinator performs at most N
execution attempts; when the store throws on every attempt and each
repair succeeds, it throws the QueryExecutionError message embedding
the attempt count N and the message of the last underlying failure,
after exactly N attempts; when the store first succeeds at some attempt
k within budget, it returns that attempt's result set after exactly
k + 1 attempts. -/
theorem executeQueryWithRetry_attempt_semantics
    (store : MongoService.Store) (fixer : MongoService.Fixer)
    (q : Json) (oq : String) (maxRetries : ℤ)
    (eF : ℕ → Json → String) (fF : String → String → Json → Json)
    (rF : Json → List Json) (k : ℕ)
    (hN : 1 ≤ maxRetries) :
    (MongoService.execCount
        (MongoService.executeQueryWithRetry store fixer q oq maxRetries).2 : ℤ)
        ≤ maxRetries ∧
    ((∀ a q2, store a q2 = .error (eF a q2)) →
      (∀ a e q2, fixer a e q2 = .ok (fF a e q2)) →
      ∃ qf evs,
        MongoService.executeQueryWithRetry store fixer q oq maxRetries
            = (.thrown ("Database query failed after " ++ toString maxRetries
                ++ " attempts: " ++ eF (maxRetries.toNat - 1) qf), evs) ∧
          MongoService.execCount evs = maxRetries.toNat) ∧
    ((∀ a q2, a < k → store a q2 = .error (eF a q2)) →
      (∀ q2, store k q2 = .ok (rF q2)) →
      (∀ a e q2, fixer a e q2 = .ok (fF a e q2)) →
      k < maxRetries.toNat →
      ∃ qk evs,
        MongoService.executeQueryWithRetry store fixer q oq maxRetries
            = (.success (rF qk), evs) ∧
          MongoService.execCount evs = k + 1) := by
  refine ⟨?_, ?_, ?_⟩
  · have h := retryGo_execCount_le store fixer oq maxRetries maxRetries.toNat 0 q
    unfold MongoService.executeQueryWithRetry
    omega
  · intro hstore hfix
    exact retryGo_exhausts store fixer oq maxRetries eF fF hstore hfix
      maxRetries.toNat 0 q (by omega) (by omega)
  · intro hbefore hat hfix hk
    obtain ⟨qk, evs, heq, hcount⟩ :=
      retryGo_first_success store fixer oq maxRetries eF fF rF k hbefore hat hfix hk
        maxRetries.toNat 0 q (by omega) (by omega)
    exact ⟨qk, evs, heq, by omega⟩

/-- Witness for C1 with budget 2 and a store stub that fails attempt 0
and succeeds at attempt 1: the run succeeds with attempt 1's result set
after exactly 2 recorded store calls. -/
theorem executeQueryWithRetry_attempt_semantics_witness :
    (MongoService.executeQueryWithRetry storeSucceedsAt1 fixerOk
        (Json.arr []) "q" 2).1 = .success [Json.num 1] ∧
      MongoService.execCount
        (MongoService.executeQueryWithRetry storeSucceedsAt1 fixerOk
          (Json.arr []) "q" 2).2 = 2 := by
  obtain ⟨-, -, h3⟩ :=
    executeQueryWithRetry_attempt_semantics storeSucceedsAt1 fixerOk
      (Json.arr []) "q" 2 (fun _ _ => "first attempt failed")
      (fun _ _ _ => Json.arr []) (fun _ => [Json.num 1]) 1 (by norm_num)
  obtain ⟨qk, evs, heq, hcount⟩ := h3
    (by
      intro a q2 ha
      have : a = 0 := by omega
      subst this
      rfl)
    (fun q2 => rfl)
    (fun a e q2 => rfl)
    (by norm_num)
  rw [heq]
  exact ⟨rfl, hcount⟩

/-- C4: if a repair call made inside the retry loop fails, the loop
throws the QueryRepairError message wrapping the repair failure at
once: the call trace of that iteration is exactly one execution and one
repair call, with no further execution attempt (first conjunct, at any
loop state with any remaining fuel); consequently a run with budget at
least 2 whose first execution fails and whose repair fails stops after
a single execution attempt (second conjunct). -/
theorem repair_failure_terminal
    (store : MongoService.Store) (fixer : MongoService.Fixer)
    (oq : String) (maxRetries : ℤ) :
    (∀ (fuel attempt : ℕ) (q : Json) (e f : String),
        store attempt q = .error e → ¬ (attempt : ℤ) = maxRetries - 1 →
        fixer oq e q = .error f →
        MongoService.retryGo store fixer oq maxRetries (fuel + 1) attempt q
          = (.thrown ("Query could not be fixed: " ++ f),
              [.exec attempt q, .fix e q])) ∧
    (∀ (q : Json) (e f : String), 2 ≤ maxRetries →
        store 0 q = .error e → fixer oq e q = .error f →
        MongoService.executeQueryWithRetry store fixer q oq maxRetries
          = (.thrown ("Query could not be fixed: " ++ f),
              [.exec 0 q, .fix e q])) := by
  constructor
  · intro fuel attempt q e f hs hlast hf
    simp only [MongoService.retryGo, hs]
    rw [if_neg hlast]
    rw [hf]
  · intro q e f hN hs hf
    unfold MongoService.executeQueryWithRetry
    have hfuel : maxRetries.toNat = (maxRetries.toNat - 1) + 1 := by omega
    rw [hfuel]
    simp only [MongoService.retryGo, hs]
    rw [if_neg (by omega : ¬ ((0 : ℕ) : ℤ) = maxRetries - 1)]
    rw [hf]

/-- Witness for C4: budget 3, a store that always throws and a fixer
that always throws; the run stops with the repair-failure message after
one execution and one repair call. -/
theorem repair_failure_terminal_witness :
    MongoService.executeQueryWithRetry storeAlwaysFail fixerFail
        (Json.arr []) "q" 3
      = (.thrown ("Query could not be fixed: " ++ "repair refused"),
          [.exec 0 (Json.arr []),
            .fix ("execution failed at attempt " ++ toString (0 : ℕ)) (Json.arr [])]) :=
  (repair_failure_terminal storeAlwaysFail fixerFail "q" 3).2
    (Json.arr []) ("execution failed at attempt " ++ toString (0 : ℕ)) "repair refused"
    (by norm_num) rfl rfl

/-- C9: calling the initialization of the query generator or of the
result analyzer a second time has no observable effect beyond the first
call: the resulting state is unchanged (in particular the stored
context), no error is raised (initialization is a total function), and
the initialized flag stays set. -/
theorem initialization_idempotent :
    (∀ st : GenState,
        QueryGenerator.initOnce (QueryGenerator.initOnce st) = QueryGenerator.initOnce st ∧
        (QueryGenerator.initOnce (QueryGenerator.initOnce st)).context
            = (QueryGenerator.initOnce st).context ∧
        (QueryGenerator.initOnce (QueryGenerator.initOnce st)).isInitialized = true) ∧
    (∀ st : AnalyzerState,
        ResultAnalyzer.initOnce (ResultAnalyzer.initOnce st) = ResultAnalyzer.initOnce st ∧
        (ResultAnalyzer.initOnce (ResultAnalyzer.initOnce st)).context
            = (ResultAnalyzer.initOnce st).context ∧
        (ResultAnalyzer.initOnce (ResultAnalyzer.initOnce st)).isInitialized = true) := by
  constructor
  · intro st
    by_cases h : st.isInitialized <;>
      simp [QueryGenerator.initOnce, h]
  · intro st
    by_cases h : st.isInitialized <;>
      simp [ResultAnalyzer.initOnce, h]

/-- C10: with a nonpositive retry budget the retry loop performs no
execution attempt and no repair call, raises no error and returns no
result set: the function returns the undefined value with an empty call
trace. -/
theorem executeQueryWithRetry_nonpositive_budget
    (store : MongoService.Store) (fixer : MongoService.Fixer)
    (q : Json) (oq : String) (maxRetries : ℤ) (h : maxRetries ≤ 0) :
    MongoService.executeQueryWithRetry store fixer q oq maxRetries
      = (.undef, []) := by
  unfold MongoService.executeQueryWithRetry
  rw [Int.toNat_of_nonpos h]
  rfl

/-- Witness for C10 at the concrete budget -2 with concrete stubs. -/
theorem executeQueryWithRetry_nonpositive_budget_witness :
    MongoService.executeQueryWithRetry storeAlwaysFail fixerOk (Json.arr []) "q" (-2)
      = (.undef, []) :=
  executeQueryWithRetry_nonpositive_budget storeAlwaysFail fixerOk (Json.arr []) "q" (-2)
    (by norm_num)

/-- C2 counterexample: when the repair oracle answers with the text
"5", which is valid JSON but not an array, fixQuery returns the parsed
number 5 as a success instead of failing: the array-shape contract of
generateQuery is not enforced by fixQuery. -/
theorem fixQuery_nonarray_counterexample :
    QueryGenerator.fixQuery readyGen oracleNum5 "q" "some error" (Json.arr [])
        = .ok (Json.num 5) ∧
      Json.isArr (Json.num 5) = false :=
  ⟨rfl, rfl⟩

/-- C2 amended: fixQuery fails with a TranslationError-style message
("Failed to fix query: ...") when the oracle is unavailable or its
output does not parse as JSON, but it performs no array-shape check:
any successfully parsed JSON value, array or not, is returned as-is. -/
theorem fixQuery_contract (st : GenState) (oracle : Oracle)
    (oq em : String) (fq : Json) :
    (∀ msg,
        oracle ⟨st.context, QueryGenerator.fixPrompt oq em fq, 1 / 10, 1000⟩
            = .unavailable msg →
        QueryGenerator.fixQuery st oracle oq em fq
            = .error ("Failed to fix query: " ++ msg)) ∧
    (∀ c msg,
        oracle ⟨st.context, QueryGenerator.fixPrompt oq em fq, 1 / 10, 1000⟩
            = .reply c (.fail msg) →
        QueryGenerator.fixQuery st oracle oq em fq
            = .error ("Failed to fix query: " ++ msg)) ∧
    (∀ c v,
        oracle ⟨st.context, QueryGenerator.fixPrompt oq em fq, 1 / 10, 1000⟩
            = .reply c (.ok v) →
        QueryGenerator.fixQuery st oracle oq em fq = .ok v) := by
  refine ⟨?_, ?_, ?_⟩
  · intro msg h
    unfold QueryGenerator.fixQuery
    rw [h]
  · intro c msg h
    unfold QueryGenerator.fixQuery
    rw [h]
  · intro c v h
    unfold QueryGenerator.fixQuery
    rw [h]

/-- Witness for the amended C2 at a concrete unparseable oracle reply. -/
theorem fixQuery_contract_witness :
    QueryGenerator.fixQuery readyGen oracleProse "q" "some error" (Json.arr [])
      = .error ("Failed to fix query: " ++ "Unexpected token I in JSON") :=
  (fixQuery_contract readyGen oracleProse "q" "some error" (Json.arr [])).2.1
    "I cannot produce a query" "Unexpected token I in JSON" rfl

/-- C3 counterexample: fixQuery invoked on the never-initialized
generator state does not fail with the NotInitializedError message; it
proceeds to the oracle call and returns the oracle's parsed reply. -/
theorem fixQuery_uninitialized_counterexample :
    uninitGen.isInitialized = false ∧
      QueryGenerator.fixQuery uninitGen oracleEmptyArr "q" "some error" (Json.arr [])
        = .ok (Json.arr []) :=
  ⟨rfl, rfl⟩

/-- C3 amended: generateQuery and analyzeResults fail with their
NotInitializedError messages when called before initialization, without
reaching the oracle; fixQuery has no initialization guard: its result
ignores the initialized flag entirely (it depends only on the stored
context and the oracle). -/
theorem initialization_guards (oracle : Oracle) :
    (∀ (st : GenState) (uq : String), st.isInitialized = false →
        QueryGenerator.generateQuery st oracle uq
          = .error "Query Generator not initialized") ∧
    (∀ (st : AnalyzerState) (oq : String) (rs : List Json), st.isInitialized = false →
        ResultAnalyzer.analyzeResults st oracle oq rs
          = .error "Result Analyzer not initialized") ∧
    (∀ (b b2 : Bool) (ctx : Option String) (oq em : String) (fq : Json),
        QueryGenerator.fixQuery ⟨b, ctx⟩ oracle oq em fq
          = QueryGenerator.fixQuery ⟨b2, ctx⟩ oracle oq em fq) := by
  refine ⟨?_, ?_, ?_⟩
  · intro st uq h
    unfold QueryGenerator.generateQuery
    rw [h]
    rfl
  · intro st oq rs h
    unfold ResultAnalyzer.analyzeResults
    rw [h]
    rfl
  · intro b b2 ctx oq em fq
    rfl

/-- Witness for the amended C3: the uninitialized generator and
analyzer reject a call even with a live oracle, and fixQuery behaves
identically on the two sides of the initialized flag. -/
theorem initialization_guards_witness :
    QueryGenerator.generateQuery uninitGen oracleEmptyArr "q"
        = .error "Query Generator not initialized" ∧
      ResultAnalyzer.analyzeResults uninitAnalyzer oracleEmptyArr "q" []
        = .error "Result Analyzer not initialized" ∧
      QueryGenerator.fixQuery ⟨false, none⟩ oracleNum5 "q" "e" (Json.arr [])
        = QueryGenerator.fixQuery ⟨true, none⟩ oracleNum5 "q" "e" (Json.arr []) :=
  ⟨(initialization_guards oracleEmptyArr).1 uninitGen "q" rfl,
    (initialization_guards oracleEmptyArr).2.1 uninitAnalyzer "q" [] rfl,
    (initialization_guards oracleNum5).2.2 false true none "q" "e" (Json.arr [])⟩

/-- C5: once initialized, generateQuery either returns a JSON array or
fails with a TranslationError-style message ("Failed to generate
MongoDB query: ..."); in particular a non-JSON oracle reply and a
valid-JSON non-array reply both fail that way (through the inner
"Invalid MongoDB query generated" wrap), and the empty array is
returned as a legitimate success. -/
theorem generateQuery_array_or_translation_error (st : GenState) (oracle : Oracle)
    (uq : String) (hinit : st.isInitialized = true) :
    ((∃ stages, QueryGenerator.generateQuery st oracle uq = .ok (Json.arr stages)) ∨
      (∃ msg, QueryGenerator.generateQuery st oracle uq
        = .error ("Failed to generate MongoDB query: " ++ msg))) ∧
    (∀ c msg, oracle ⟨st.context, uq, 1 / 10, 1000⟩ = .reply c (.fail msg) →
        QueryGenerator.generateQuery st oracle uq
          = .error ("Failed to generate MongoDB query: "
              ++ ("Invalid MongoDB query generated: " ++ msg))) ∧
    (∀ c v, oracle ⟨st.context, uq, 1 / 10, 1000⟩ = .reply c (.ok v) →
        Json.isArr v = false →
        QueryGenerator.generateQuery st oracle uq
          = .error ("Failed to generate MongoDB query: "
              ++ ("Invalid MongoDB query generated: " ++ "Query must be an array"))) ∧
    (∀ c, oracle ⟨st.context, uq, 1 / 10, 1000⟩ = .reply c (.ok (Json.arr [])) →
        QueryGenerator.generateQuery st oracle uq = .ok (Json.arr [])) := by
  refine ⟨?_, ?_, ?_, ?_⟩
  · unfold QueryGenerator.generateQuery
    rw [hinit]
    rcases hor : oracle ⟨st.context, uq, 1 / 10, 1000⟩ with msg | ⟨c, parsed⟩
    · exact Or.inr ⟨msg, rfl⟩
    · rcases parsed with msg | v
      · exact Or.inr ⟨"Invalid MongoDB query generated: " ++ msg, rfl⟩
      · rcases v with _ | b | q | s | elems | fields
        · exact Or.inr ⟨_, rfl⟩
        · exact Or.inr ⟨_, rfl⟩
        · exact Or.inr ⟨_, rfl⟩
        · exact Or.inr ⟨_, rfl⟩
        · exact Or.inl ⟨elems, rfl⟩
        · exact Or.inr ⟨_, rfl⟩
  · intro c msg h
    unfold QueryGenerator.generateQuery
    rw [hinit, h]
    rfl
  · intro c v h hv
    unfold QueryGenerator.generateQuery
    rw [hinit, h]
    rcases v with _ | b | q | s | elems | fields
    · rfl
    · rfl
    · rfl
    · rfl
    · exact absurd hv (by simp [Json.isArr])
    · rfl
  · intro c h
    unfold QueryGenerator.generateQuery
    rw [hinit, h]
    rfl

/-- Witness for C5: the initialized generator turns a valid-JSON
non-array oracle reply into the wrapped TranslationError message. -/
theorem generateQuery_array_or_translation_error_witness :
    QueryGenerator.generateQuery readyGen oracleNum5 "q"
      = .error ("Failed to generate MongoDB query: "
          ++ ("Invalid MongoDB query generated: " ++ "Query must be an array")) :=
  (generateQuery_array_or_translation_error readyGen oracleNum5 "q" rfl).2.2.1
    "5" (Json.num 5) rfl rfl

/-- C8 counterexample: the initialized analyzer, given an oracle reply
whose content is the empty string, returns the empty string as a
successful analysis instead of failing with an AnalysisError-style
message. -/
theorem analyzeResults_empty_reply_counterexample :
    ResultAnalyzer.analyzeResults readyAnalyzer oracleEmptyReply "q" []
      = .ok "" :=
  rfl

/-- C8 amended: once initialized, analyzeResults fails with an
AnalysisError-style message ("Failed to analyze results: ...") when the
oracle is unavailable, but it performs no emptiness check on the
oracle's reply: the trimmed content is returned as a success even when
it is empty. -/
theorem analyzeResults_contract (st : AnalyzerState) (oracle : Oracle)
    (oq : String) (rs : List Json) (hinit : st.isInitialized = true) :
    (∀ msg,
        oracle ⟨st.context, ResultAnalyzer.analysisPrompt oq rs, 3 / 10, 800⟩
            = .unavailable msg →
        ResultAnalyzer.analyzeResults st oracle oq rs
          = .error ("Failed to analyze results: " ++ msg)) ∧
    (∀ c p,
        oracle ⟨st.context, ResultAnalyzer.analysisPrompt oq rs, 3 / 10, 800⟩
            = .reply c p →
        ResultAnalyzer.analyzeResults st oracle oq rs = .ok (jsTrim c)) := by
  constructor
  · intro msg h
    unfold ResultAnalyzer.analyzeResults
    rw [hinit, h]
    rfl
  · intro c p h
    unfold ResultAnalyzer.analyzeResults
    rw [hinit, h]
    rfl

/-- Witness for the amended C8: oracle unavailability surfaces as the
wrapped analysis failure message. -/
theorem analyzeResults_contract_witness :
    ResultAnalyzer.analyzeResults readyAnalyzer oracleDown "q" []
      = .error ("Failed to analyze results: " ++ "network down") :=
  (analyzeResults_contract readyAnalyzer oracleDown "q" [] rfl).1 "network down" rfl

/-- A result set with more than 10 records that is not classified
aggregated falls through to the bounded digest. -/
theorem prepareResultSummary_of_large (rs : List Json) (h10 : 10 < rs.length)
    (hagg : ResultAnalyzer.isAggregatedData (some rs) = false) :
    ResultAnalyzer.prepareResultSummary (some rs)
      = ResultAnalyzer.largeSetDigest rs := by
  simp only [ResultAnalyzer.prepareResultSummary]
  rw [if_neg (by omega : ¬ rs.length = 0), hagg,
    if_neg (by simp : ¬ (false = true)), if_neg (by omega : ¬ rs.length ≤ 10)]

/-- C6 counterexample: an 11-record set whose first record carries the
aggregate markers while the 10 later records carry none of them is
classified aggregated and fully serialized, although not each record
carries the marker fields and the set is larger than 10 records (the
claim would demand the bounded digest here): the heuristic inspects
only the first record. -/
theorem prepareResultSummary_first_record_counterexample :
    10 < mixedFirstAggSet.length ∧
      (mixedFirstAggSet.drop 1).all lacksAggMarkers = true ∧
      ResultAnalyzer.prepareResultSummary (some mixedFirstAggSet)
        = "Complete aggregated results (" ++ toString mixedFirstAggSet.length
            ++ " records):\n" ++ jsonStringify (Json.arr mixedFirstAggSet) :=
  ⟨by decide, by decide, rfl⟩

/-- C6 amended: prepareResultSummary applies the three-tier size
policy where the aggregated-recognition heuristic inspects only the
first record: an absent or empty result set yields exactly the fixed
no-data sentence; a result set recognized as aggregated (the first
record carries the identifier field plus at least one recognized
aggregate-value field, and the set has at most 200 records), or any
nonempty result set with at most 10 records, yields a full verbatim
serialization of all records; any other result set yields the bounded
digest. -/
theorem prepareResultSummary_tiers :
    (ResultAnalyzer.prepareResultSummary none
        = "No data found matching the query criteria.") ∧
    (ResultAnalyzer.prepareResultSummary (some [])
        = "No data found matching the query criteria.") ∧
    (∀ rs : List Json, ResultAnalyzer.isAggregatedData (some rs) = true →
        ResultAnalyzer.prepareResultSummary (some rs)
          = "Complete aggregated results (" ++ toString rs.length ++ " records):\n"
            ++ jsonStringify (Json.arr rs)) ∧
    (∀ rs : List Json, 1 ≤ rs.length → rs.length ≤ 10 →
        ResultAnalyzer.isAggregatedData (some rs) = false →
        ResultAnalyzer.prepareResultSummary (some rs)
          = "Complete results: " ++ jsonStringify (Json.arr rs)) ∧
    (∀ rs : List Json, 10 < rs.length →
        ResultAnalyzer.isAggregatedData (some rs) = false →
        ResultAnalyzer.prepareResultSummary (some rs)
          = ResultAnalyzer.largeSetDigest rs) := by
  refine ⟨rfl, rfl, ?_, ?_, ?_⟩
  · intro rs hagg
    have hne : ¬ rs.length = 0 := by
      intro h0
      rw [List.length_eq_zero] at h0
      subst h0
      exact absurd hagg (by decide)
    simp only [ResultAnalyzer.prepareResultSummary]
    rw [if_neg hne, if_pos hagg]
  · intro rs h1 h10 hagg
    simp only [ResultAnalyzer.prepareResultSummary]
    rw [if_neg (by omega : ¬ rs.length = 0), hagg,
      if_neg (by simp : ¬ (false = true)), if_pos h10]
  · exact prepareResultSummary_of_large

/-- Witness for the amended C6: the 11-record plain set falls into the
bounded-digest tier. -/
theorem prepareResultSummary_tiers_witness :
    ResultAnalyzer.prepareResultSummary (some plainLargeSet)
      = ResultAnalyzer.largeSetDigest plainLargeSet :=
  prepareResultSummary_tiers.2.2.2.2 plainLargeSet (by decide) (by decide)

/-- A value a property lookup returns comes from an object, which is
truthy. -/
theorem truthy_of_getField_some (j : Json) (k : String) (v : Json)
    (h : getField j k = some v) : truthy j = true := by
  cases j <;> simp_all [getField, truthy]

/-- On a record whose rating field is well formed, the truthiness guard
the code evaluates agrees with presence of the rating path. -/
theorem truthy_rating_eq_hasRatingField (r : Json)
    (h : wellFormedRating r = true) :
    (truthy (jsField r "ratings") && truthy (jsField (jsField r "ratings") "overallAverage"))
      = hasRatingField r := by
  unfold wellFormedRating at h
  rcases hg : getField r "ratings" with _ | rv
  · simp [jsField, hg, hasRatingField, truthy]
  · rw [hg] at h
    have h2 : (match getField rv "overallAverage" with
        | none => true
        | some (Json.num q) => decide (q ≠ 0)
        | some _ => false) = true := h
    rcases ho : getField rv "overallAverage" with _ | v
    · simp [jsField, hg, ho, hasRatingField, truthy]
    · rw [ho] at h2
      have hrv : truthy rv = true := truthy_of_getField_some rv "overallAverage" v ho
      rcases v with _ | b | q | s | elems | fields
      · exact absurd h2 (by simp)
      · exact absurd h2 (by simp)
      · simp only [decide_eq_true_eq] at h2
        simp [jsField, hg, ho, hasRatingField, truthy, h2]
        exact hrv
      · exact absurd h2 (by simp)
      · exact absurd h2 (by simp)
      · exact absurd h2 (by simp)

/-- On records whose field `k` is a well-formed string field, mapping
the property access and keeping the truthy values (what the code does)
yields exactly the present values (what the spec describes). -/
theorem filter_truthy_map_eq_presentValues (k : String) :
    ∀ rs : List Json, (∀ r ∈ rs, wellFormedStringField r k = true) →
      (rs.map (fun r => jsField r k)).filter truthy = presentValues rs k := by
  intro rs
  induction rs with
  | nil => intro _; rfl
  | cons r rest ih =>
      intro h
      have hr := h r (List.mem_cons_self r rest)
      have hrest := fun x hx => h x (List.mem_cons_of_mem r hx)
      unfold wellFormedStringField at hr
      rcases hg : getField r k with _ | v
      · rw [hg] at hr
        simp only [List.map_cons, presentValues, List.filterMap_cons, hg]
        rw [show jsField r k = Json.null from by simp [jsField, hg]]
        rw [List.filter_cons_of_neg (by simp [truthy])]
        exact ih hrest
      · rw [hg] at hr
        rcases v with _ | b | q | s | elems | fields
        · exact absurd hr (by simp)
        · exact absurd hr (by simp)
        · exact absurd hr (by simp)
        · simp only [decide_eq_true_eq] at hr
          simp only [List.map_cons, presentValues, List.filterMap_cons, hg]
          rw [show jsField r k = Json.str s from by simp [jsField, hg]]
          rw [List.filter_cons_of_pos (by simp [truthy, hr])]
          have := ih hrest
          simp only [presentValues] at this
          rw [this]
        · exact absurd hr (by simp)
        · exact absurd hr (by simp)

/-- C7: on a result set with more than 10 records that is not
recognized as aggregated, and whose rating, instructor and domain
fields are well formed per the documented schema, the digest is exactly
the concatenation of the spec-side components: the total record count,
the first 10 records verbatim, the mean of the rating field over
exactly the records that have it (included only when at least one
record has it), the distinct instructor names (first 5 listed, ellipsis
when more), and the distinct set of domain values. -/
theorem largeSetDigest_decomposition (rs : List Json)
    (h10 : 10 < rs.length)
    (hagg : ResultAnalyzer.isAggregatedData (some rs) = false)
    (hr : ∀ r ∈ rs, wellFormedRating r = true)
    (hi : ∀ r ∈ rs, wellFormedStringField r "instructor" = true)
    (hd : ∀ r ∈ rs, wellFormedStringField r "domain" = true) :
    ResultAnalyzer.prepareResultSummary (some rs)
      = specTotalLine rs ++ specSampleLine rs ++ specMeanLine rs
        ++ specInstructorLine rs ++ specDomainLine rs := by
  rw [prepareResultSummary_of_large rs h10 hagg]
  simp only [ResultAnalyzer.largeSetDigest, specTotalLine, specSampleLine, specMeanLine,
    specInstructorLine, specDomainLine]
  rw [List.filter_congr (fun r hm => truthy_rating_eq_hasRatingField r (hr r hm))]
  rw [filter_truthy_map_eq_presentValues "instructor" rs hi]
  rw [filter_truthy_map_eq_presentValues "domain" rs hd]
  simp [String.append_assoc]

/-- Witness for C7 at the 11-record plain set: the digest equals the
spec-side concatenation there. -/
theorem largeSetDigest_decomposition_witness :
    ResultAnalyzer.prepareResultSummary (some plainLargeSet)
      = specTotalLine plainLargeSet ++ specSampleLine plainLargeSet
        ++ specMeanLine plainLargeSet ++ specInstructorLine plainLargeSet
        ++ specDomainLine plainLargeSet :=
  largeSetDigest_decomposition plainLargeSet (by decide) (by decide)
    (List.all_eq_true.mp (by decide))
    (List.all_eq_true.mp (by decide))
    (List.all_eq_true.mp (by decide))

end SessionAnalyzer
